import Mathlib

set_option maxRecDepth 100000

/-!
Verification development for the candidate-engagement-chatbot repository.

The TypeScript core is shallowly embedded: JavaScript numbers are modelled
exactly over the rationals, strings over `List Char` (all relevant inputs are
ASCII), absent / `undefined` fields over `Option`, and the JS regular
expressions used by the data extractor over a small backtracking matcher
(`RE` / `reFind`) that mirrors leftmost-match, ordered-alternation, greedy
semantics of the source patterns.

Inside executable definitions rationals are represented by `JQ`, an
unnormalised fraction whose denominator is stored as its predecessor (so it
is positive by construction and every operation reduces in the kernel);
`JQ.toRat` interprets a `JQ` as an ordinary rational.
-/

namespace Chatbot

/-! ## Exact rational arithmetic for executable definitions -/

/-- Unnormalised rational number `num / (dpred + 1)`.  Keeping the
predecessor of the denominator makes positivity structural. -/
structure JQ where
  num : Int
  dpred : Nat

/-- Denominator of a `JQ` (always positive). -/
def JQ.den (q : JQ) : Nat := q.dpred + 1

/-- Interpretation of a `JQ` as a rational. -/
def JQ.toRat (q : JQ) : ℚ := (q.num : ℚ) / (q.den : ℚ)

/-- The rational `n / d` (for a positive literal `d`). -/
def jqDec (n : Int) (d : Nat) : JQ := ⟨n, d - 1⟩

def jqAdd (a b : JQ) : JQ :=
  ⟨a.num * b.den + b.num * a.den, a.dpred * b.dpred + a.dpred + b.dpred⟩

def jqSub (a b : JQ) : JQ :=
  ⟨a.num * b.den - b.num * a.den, a.dpred * b.dpred + a.dpred + b.dpred⟩

def jqMul (a b : JQ) : JQ :=
  ⟨a.num * b.num, a.dpred * b.dpred + a.dpred + b.dpred⟩

def jqLeB (a b : JQ) : Bool := decide (a.num * b.den ≤ b.num * a.den)

def jqLtB (a b : JQ) : Bool := decide (a.num * b.den < b.num * a.den)

/-- JavaScript `Math.min` on two rationals. -/
def jqMin (a b : JQ) : JQ := if jqLeB a b then a else b

/-- JavaScript `Math.max` on two rationals. -/
def jqMax (a b : JQ) : JQ := if jqLeB a b then b else a

/-! ## Character and string utilities (ASCII, as used by the source) -/

abbrev LStr := List Char

/-- ASCII lowercasing, as JavaScript `toLowerCase` acts on ASCII text. -/
def lowerChar (c : Char) : Char :=
  if 'A' ≤ c ∧ c ≤ 'Z' then Char.ofNat (c.toNat + 32) else c

def lowerStr (s : LStr) : LStr := s.map lowerChar

def isDigitCh (c : Char) : Bool := decide ('0' ≤ c) && decide (c ≤ '9')

def isLetterCh (c : Char) : Bool :=
  (decide ('A' ≤ c) && decide (c ≤ 'Z')) || (decide ('a' ≤ c) && decide (c ≤ 'z'))

/-- JavaScript `\w`: letter, digit or underscore. -/
def isWordCh (c : Char) : Bool := isLetterCh c || isDigitCh c || c == '_'

/-- JavaScript `\s` restricted to the ASCII whitespace characters. -/
def isSpaceCh (c : Char) : Bool :=
  c == ' ' || c == '\t' || c == '\n' || c == '\r' || c == '\x0b' || c == '\x0c'

/-- Does `hay` start with `needle`? -/
def leadsWith : LStr → LStr → Bool
  | [], _ => true
  | _ :: _, [] => false
  | a :: as, b :: bs => a == b && leadsWith as bs

/-- JavaScript `String.prototype.includes` (substring test). -/
def containsSub (hay needle : LStr) : Bool :=
  match hay with
  | [] => needle.isEmpty
  | _ :: t => leadsWith needle hay || containsSub t needle

/-- JavaScript `String.prototype.indexOf`. -/
def indexOfSub (hay needle : LStr) : Option Nat :=
  match hay with
  | [] => if needle.isEmpty then some 0 else none
  | _ :: t =>
      if leadsWith needle hay then some 0
      else (indexOfSub t needle).map (· + 1)

/-- JavaScript `String.prototype.trim` on ASCII whitespace. -/
def trimStr (s : LStr) : LStr :=
  ((s.dropWhile isSpaceCh).reverse.dropWhile isSpaceCh).reverse

/-- JavaScript `String.prototype.substring start stop` (already-clamped indices). -/
def sliceStr (s : LStr) (start stop : Nat) : LStr :=
  (s.drop start).take (stop - start)

/-- JavaScript `String.prototype.split` at a single separator character. -/
def splitOnCh (sep : Char) (s : LStr) : List LStr :=
  match s with
  | [] => [[]]
  | c :: t =>
      let rest := splitOnCh sep t
      if c == sep then [] :: rest
      else
        match rest with
        | [] => [[c]]
        | h :: r => (c :: h) :: r

/-- Collapse runs of whitespace into single spaces (JS `replace(/\s+/g, " ")`);
the flag records whether the previous character was whitespace. -/
def collapseSpacesAux : Bool → LStr → LStr
  | _, [] => []
  | prevSp, c :: t =>
      if isSpaceCh c then
        if prevSp then collapseSpacesAux true t else ' ' :: collapseSpacesAux true t
      else c :: collapseSpacesAux false t

def collapseSpaces (s : LStr) : LStr := collapseSpacesAux false s

/-! ## A small backtracking regex matcher

The data extractor's patterns are JavaScript regexes; they are transcribed
below as terms of `RE` and run by `reM` / `reFind`, which implement the
backtracking semantics the source relies on: leftmost match, alternatives in
written order, greedy `*` `+` `?` with backtracking, word boundaries `\b`,
and numbered capture groups. -/

inductive RE : Type where
  | cls (p : Char → Bool)
  | lit (ci : Bool) (s : LStr)
  | seq (a b : RE)
  | alt (a b : RE)
  | star (a : RE)
  | opt (a : RE)
  | grp (idx : Nat) (a : RE)
  | bnd

/-- Sequence a list of regex pieces. -/
def reSeqN (l : List RE) : RE :=
  match l with
  | [] => RE.lit false []
  | [r] => r
  | r :: t => RE.seq r (reSeqN t)

/-- Alternation over a list, first alternative preferred. -/
def reAltN (l : List RE) : RE :=
  match l with
  | [] => RE.lit false []
  | [r] => r
  | r :: t => RE.alt r (reAltN t)

/-- Greedy `+`. -/
def rePlus (a : RE) : RE := RE.seq a (RE.star a)

def charEqCI (ci : Bool) (a b : Char) : Bool :=
  if ci then lowerChar a == lowerChar b else a == b

/-- Try to consume the literal `s` at position `pos` of `text`. -/
def litAt (text : LStr) (ci : Bool) : LStr → Nat → Option Nat
  | [], pos => some pos
  | a :: as, pos =>
      match text.get? pos with
      | some c => if charEqCI ci a c then litAt text ci as (pos + 1) else none
      | none => none

abbrev Caps := List (Nat × LStr)

def setCap (caps : Caps) (i : Nat) (v : LStr) : Caps :=
  match caps with
  | [] => [(i, v)]
  | (j, w) :: t => if j == i then (i, v) :: t else (j, w) :: setCap t i v

/-- Is the character at position `i` (if any) a word character? -/
def wordAt (text : LStr) (i : Nat) : Bool :=
  match text.get? i with
  | some c => isWordCh c
  | none => false

/-- Word-boundary test between positions `pos - 1` and `pos`. -/
def boundaryAt (text : LStr) (pos : Nat) : Bool :=
  match pos with
  | 0 => wordAt text 0
  | p + 1 => wordAt text p != wordAt text (p + 1)

/-- Backtracking matcher in continuation-passing style.  The `fuel`
parameter only makes the recursion structural (so that matches of concrete
patterns reduce inside the kernel); `reFind` supplies far more fuel than any
match can consume, so it never runs out on the patterns of this
development. -/
def reM (text : LStr) : Nat → RE → Nat → Caps →
    (Nat → Caps → Option (Nat × Caps)) → Option (Nat × Caps)
  | 0, _, _, _, _ => none
  | fuel + 1, re, pos, caps, k =>
      match re with
      | .cls p =>
          match text.get? pos with
          | some c => if p c then k (pos + 1) caps else none
          | none => none
      | .lit ci s =>
          match litAt text ci s pos with
          | some pos2 => k pos2 caps
          | none => none
      | .seq a b => reM text fuel a pos caps (fun p2 c2 => reM text fuel b p2 c2 k)
      | .alt a b =>
          match reM text fuel a pos caps k with
          | some r => some r
          | none => reM text fuel b pos caps k
      | .opt a =>
          match reM text fuel a pos caps k with
          | some r => some r
          | none => k pos caps
      | .star a =>
          match reM text fuel a pos caps (fun p2 c2 =>
              if p2 == pos then none else reM text fuel (.star a) p2 c2 k) with
          | some r => some r
          | none => k pos caps
      | .grp i a =>
          reM text fuel a pos caps (fun p2 c2 => k p2 (setCap c2 i (sliceStr text pos p2)))
      | .bnd => if boundaryAt text pos then k pos caps else none

structure REMatch where
  start : Nat
  stop : Nat
  caps : Caps

/-- Matched text of the whole pattern (JS `match[0]`). -/
def REMatch.whole (text : LStr) (m : REMatch) : LStr := sliceStr text m.start m.stop

/-- Captured group `i` (JS `match[i]`, `none` when the group did not participate). -/
def REMatch.grp (m : REMatch) (i : Nat) : Option LStr := m.caps.lookup i

/-- Size of a pattern, used to compute an ample fuel bound. -/
def reSize : RE → Nat
  | .cls _ => 1
  | .lit _ s => s.length + 1
  | .seq a b => reSize a + reSize b + 1
  | .alt a b => reSize a + reSize b + 1
  | .star a => reSize a + 1
  | .opt a => reSize a + 1
  | .grp _ a => reSize a + 1
  | .bnd => 1

/-- Ample fuel: one match attempt visits each pattern node at most once per
text position (`star` bodies must consume at least one character per
unrolling), so this bound is never reached. -/
def reFuel (re : RE) (text : LStr) : Nat := (reSize re + 2) * (text.length + 2) * 2

/-- Scan positions `pos, pos + 1, ...` (`rem` counts the positions left). -/
def reFindFrom (re : RE) (text : LStr) : Nat → Nat → Option REMatch
  | 0, _ => none
  | rem + 1, pos =>
      match reM text (reFuel re text) re pos [] (fun p c => some (p, c)) with
      | some (stop, caps) => some ⟨pos, stop, caps⟩
      | none => reFindFrom re text rem (pos + 1)

/-- Leftmost match of `re` in `text` (JS `text.match(re)` for non-global `re`). -/
def reFind (re : RE) (text : LStr) : Option REMatch :=
  reFindFrom re text (text.length + 1) 0

/-- Anchored whole-string test (JS `^...$` patterns used for validation). -/
def reTestAll (re : RE) (text : LStr) : Bool :=
  match reM text (reFuel re text) re 0 []
      (fun p c => if p == text.length then some (p, c) else none) with
  | some _ => true
  | none => false

/-- Unanchored test (JS `re.test(text)`). -/
def reTest (re : RE) (text : LStr) : Bool := (reFind re text).isSome

/-! ## Data extractor (src/app/lib/data-extractor.ts)

`ExtractedData` is a JS object with string keys; it is modelled as an
association list in insertion order, with `dataSet` implementing JS property
assignment (update in place, or append for a new key). -/

/-- A JS value stored in an `ExtractedData` record: string, number or
array of strings. -/
inductive JSV : Type where
  | s (v : LStr)
  | n (v : JQ)
  | arr (v : List LStr)

abbrev ExtractedData := List (String × JSV)

def setAssocS {β : Type} : List (String × β) → String → β → List (String × β)
  | [], k, v => [(k, v)]
  | (j, w) :: t, k, v => if j == k then (k, v) :: t else (j, w) :: setAssocS t k v

def dataSet (d : ExtractedData) (k : String) (v : JSV) : ExtractedData := setAssocS d k v

def dataLookup (d : ExtractedData) (k : String) : Option JSV := d.lookup k

def clsDigit : RE := RE.cls isDigitCh

/-- `[A-Z]` / `[a-z]` under the `i` flag: any ASCII letter. -/
def clsLetter : RE := RE.cls isLetterCh

def clsSpace : RE := RE.cls isSpaceCh

def reLit (ci : Bool) (s : String) : RE := RE.lit ci s.toList

/-- `(?:years?|yrs?)` with the `i` flag. -/
def yearsUnitRe : RE :=
  RE.alt (RE.seq (reLit true "year") (RE.opt (reLit true "s")))
    (RE.seq (reLit true "yr") (RE.opt (reLit true "s")))

/-- `[A-Z][a-z]+(?:\s+[A-Z][a-z]+)*` under the `i` flag. -/
def capitalWordsRe : RE :=
  reSeqN [clsLetter, rePlus clsLetter,
    RE.star (reSeqN [rePlus clsSpace, clsLetter, rePlus clsLetter])]

/-- Pattern `fullName`: `\b(?:my name is|i'm|i am|call me)\s+([A-Z][a-z]+(?:\s+[A-Z][a-z]+)*)/i`. -/
def fullNameRe : RE :=
  reSeqN [RE.bnd,
    reAltN [reLit true "my name is", reLit true "i'm", reLit true "i am", reLit true "call me"],
    rePlus clsSpace, RE.grp 1 capitalWordsRe]

/-- Pattern `firstName`: `\b(?:i'm|i am)\s+([A-Z][a-z]+)/i`. -/
def firstNameRe : RE :=
  reSeqN [RE.bnd, RE.alt (reLit true "i'm") (reLit true "i am"),
    rePlus clsSpace, RE.grp 1 (RE.seq clsLetter (rePlus clsLetter))]

def emailLocalCh (c : Char) : Bool :=
  isLetterCh c || isDigitCh c || c == '.' || c == '_' || c == '%' || c == '+' || c == '-'

def emailDomCh (c : Char) : Bool := isLetterCh c || isDigitCh c || c == '.' || c == '-'

/-- The source TLD class is `[A-Z|a-z]`, which also matches a literal bar. -/
def emailTldCh (c : Char) : Bool := isLetterCh c || c == '|'

/-- Pattern `email`: `\b[A-Za-z0-9._%+-]+@[A-Za-z0-9.-]+\.[A-Z|a-z]{2,}\b`. -/
def emailRe : RE :=
  reSeqN [RE.bnd, rePlus (RE.cls emailLocalCh), reLit false "@",
    rePlus (RE.cls emailDomCh), reLit false ".",
    RE.cls emailTldCh, RE.cls emailTldCh, RE.star (RE.cls emailTldCh), RE.bnd]

def notSpaceAtCh (c : Char) : Bool := !(isSpaceCh c) && !(c == '@')

/-- Email validation regex `^[^\s@]+@[^\s@]+\.[^\s@]+$` (used anchored). -/
def emailValidRe : RE :=
  reSeqN [rePlus (RE.cls notSpaceAtCh), reLit false "@",
    rePlus (RE.cls notSpaceAtCh), reLit false ".", rePlus (RE.cls notSpaceAtCh)]

def dashDotCh (c : Char) : Bool := c == '-' || c == '.'

def digits3Re : RE := reSeqN [clsDigit, clsDigit, clsDigit]

def digits4Re : RE := reSeqN [clsDigit, clsDigit, clsDigit, clsDigit]

/-- Pattern `phone`: `\b(?:\+?1[-.]?)?\(?([0-9]{3})\)?[-.]?([0-9]{3})[-.]?([0-9]{4})\b`. -/
def phoneRe : RE :=
  reSeqN [RE.bnd,
    RE.opt (reSeqN [RE.opt (reLit false "+"), reLit false "1", RE.opt (RE.cls dashDotCh)]),
    RE.opt (reLit false "("), RE.grp 1 digits3Re, RE.opt (reLit false ")"),
    RE.opt (RE.cls dashDotCh), RE.grp 2 digits3Re,
    RE.opt (RE.cls dashDotCh), RE.grp 3 digits4Re, RE.bnd]

/-- Phone validation regex `^\(\d{3}\) \d{3}-\d{4}$` (used anchored). -/
def phoneValidRe : RE :=
  reSeqN [reLit false "(", digits3Re, reLit false ") ", digits3Re, reLit false "-", digits4Re]

/-- Pattern `experience`:
`\b(?:i have|i've been|worked for|experience of)\s+(\d+(?:\.\d+)?)\s+(?:years?|yrs?)\b/i`. -/
def experienceRe : RE :=
  reSeqN [RE.bnd,
    reAltN [reLit true "i have", reLit true "i've been", reLit true "worked for",
      reLit true "experience of"],
    rePlus clsSpace,
    RE.grp 1 (RE.seq (rePlus clsDigit) (RE.opt (RE.seq (reLit false ".") (rePlus clsDigit)))),
    rePlus clsSpace, yearsUnitRe, RE.bnd]

/-- Pattern `experienceRange`:
`\b(?:experience|worked)\s+(?:of|for)\s+(\d+)-(\d+)\s+(?:years?|yrs?)\b/i`. -/
def experienceRangeRe : RE :=
  reSeqN [RE.bnd, RE.alt (reLit true "experience") (reLit true "worked"),
    rePlus clsSpace, RE.alt (reLit true "of") (reLit true "for"), rePlus clsSpace,
    RE.grp 1 (rePlus clsDigit), reLit false "-", RE.grp 2 (rePlus clsDigit),
    rePlus clsSpace, yearsUnitRe, RE.bnd]

/-- `\d{1,3}(?:,\d{3})*(?:k|K)?` (the salary amount group body). -/
def salaryAmountRe : RE :=
  reSeqN [RE.seq clsDigit (RE.opt (RE.seq clsDigit (RE.opt clsDigit))),
    RE.star (RE.seq (reLit false ",") digits3Re),
    RE.opt (RE.alt (reLit true "k") (reLit true "K"))]

/-- Pattern `salaryExpectation`:
`\b(?:salary|pay|compensation)\s+(?:expectation|range|requirement)?\s*(?:of|is|around)?\s*\$?(\d{1,3}(?:,\d{3})*(?:k|K)?)\b/i`. -/
def salaryExpectationRe : RE :=
  reSeqN [RE.bnd,
    reAltN [reLit true "salary", reLit true "pay", reLit true "compensation"],
    rePlus clsSpace,
    RE.opt (reAltN [reLit true "expectation", reLit true "range", reLit true "requirement"]),
    RE.star clsSpace,
    RE.opt (reAltN [reLit true "of", reLit true "is", reLit true "around"]),
    RE.star clsSpace, RE.opt (reLit false "$"),
    RE.grp 1 salaryAmountRe, RE.bnd]

/-- Pattern `salaryRange`:
`\b(?:salary|pay)\s+(?:range|expectation)?\s*\$?(...)\s*-\s*\$?(...)\b/i`. -/
def salaryRangeRe : RE :=
  reSeqN [RE.bnd, RE.alt (reLit true "salary") (reLit true "pay"),
    rePlus clsSpace, RE.opt (RE.alt (reLit true "range") (reLit true "expectation")),
    RE.star clsSpace, RE.opt (reLit false "$"), RE.grp 1 salaryAmountRe,
    RE.star clsSpace, reLit false "-", RE.star clsSpace, RE.opt (reLit false "$"),
    RE.grp 2 salaryAmountRe, RE.bnd]

/-- Pattern `location`:
`\b(?:i'm in|i live in|located in|based in)\s+([A-Z][a-z]+(?:\s+[A-Z][a-z]+)*)\b/i`. -/
def locationRe : RE :=
  reSeqN [RE.bnd,
    reAltN [reLit true "i'm in", reLit true "i live in", reLit true "located in",
      reLit true "based in"],
    rePlus clsSpace, RE.grp 1 capitalWordsRe, RE.bnd]

/-- Pattern `availability`:
`\b(?:available|start|begin|ready)\s+(?:to|for)?\s+(?:immediately|asap|next month|in \d+ weeks?)\b/i`. -/
def availabilityRe : RE :=
  reSeqN [RE.bnd,
    reAltN [reLit true "available", reLit true "start", reLit true "begin", reLit true "ready"],
    rePlus clsSpace, RE.opt (RE.alt (reLit true "to") (reLit true "for")),
    rePlus clsSpace,
    reAltN [reLit true "immediately", reLit true "asap", reLit true "next month",
      reSeqN [reLit true "in ", rePlus clsDigit, reLit true " week", RE.opt (reLit true "s")]],
    RE.bnd]

/-! ### Numeric parsing (JS `parseFloat` / `parseInt` on the captured digits) -/

def digitsToNat (s : LStr) : Nat := s.foldl (fun a c => a * 10 + (c.toNat - 48)) 0

/-- `parseFloat` of a capture of shape `\d+(\.\d+)?`, as an exact rational. -/
def parseFloatQ (s : LStr) : JQ :=
  match splitOnCh '.' s with
  | [ip, fp] => jqDec (digitsToNat ip * 10 ^ fp.length + digitsToNat fp) (10 ^ fp.length)
  | _ => jqDec (digitsToNat s) 1

/-! ### The ordered extraction-pattern table -/

structure ExtractionPattern where
  pname : String
  re : RE
  confidence : JQ
  transform : LStr → REMatch → JSV
  validation : JSV → Bool

def grpD (m : REMatch) (i : Nat) : LStr := (m.grp i).getD []

/-- The source's `initializeExtractionPatterns` list, in order.  The
per-pattern `transform` callbacks are total, so the per-pattern `try`/`catch`
of `extractBasicInformation` never fires and is not modelled. -/
def extractionPatterns : List ExtractionPattern :=
  [ { pname := "fullName", re := fullNameRe, confidence := jqDec 9 10,
      transform := fun _ m => .s (trimStr (grpD m 1)),
      validation := fun v =>
        match v with
        | .s w => decide (2 < w.length) && decide (2 ≤ (splitOnCh ' ' w).length)
        | _ => false },
    { pname := "firstName", re := firstNameRe, confidence := jqDec 7 10,
      transform := fun _ m => .s (trimStr (grpD m 1)),
      validation := fun v =>
        match v with
        | .s w => decide (1 < w.length)
        | _ => false },
    { pname := "email", re := emailRe, confidence := jqDec 95 100,
      transform := fun text m => .s (lowerStr (m.whole text)),
      validation := fun v =>
        match v with
        | .s w => reTestAll emailValidRe w
        | _ => false },
    { pname := "phone", re := phoneRe, confidence := jqDec 9 10,
      transform := fun _ m =>
        .s ('(' :: grpD m 1 ++ ')' :: ' ' :: grpD m 2 ++ '-' :: grpD m 3),
      validation := fun v =>
        match v with
        | .s w => reTestAll phoneValidRe w
        | _ => false },
    { pname := "experience", re := experienceRe, confidence := jqDec 85 100,
      transform := fun _ m => .n (parseFloatQ (grpD m 1)),
      validation := fun v =>
        match v with
        | .n q => jqLeB (jqDec 0 1) q && jqLeB q (jqDec 50 1)
        | _ => false },
    { pname := "experienceRange", re := experienceRangeRe, confidence := jqDec 8 10,
      transform := fun _ m =>
        .n (jqDec ((digitsToNat (grpD m 1) + digitsToNat (grpD m 2) + 1) / 2 : Nat) 1),
      validation := fun v =>
        match v with
        | .n q => jqLeB (jqDec 0 1) q && jqLeB q (jqDec 50 1)
        | _ => false },
    { pname := "salaryExpectation", re := salaryExpectationRe, confidence := jqDec 8 10,
      transform := fun _ m => .s (grpD m 1),
      validation := fun v =>
        match v with
        | .s w => decide (0 < w.length)
        | _ => false },
    { pname := "salaryRange", re := salaryRangeRe, confidence := jqDec 75 100,
      transform := fun _ m => .s (grpD m 1 ++ '-' :: grpD m 2),
      validation := fun v =>
        match v with
        | .s w => containsSub w ['-']
        | _ => false },
    { pname := "location", re := locationRe, confidence := jqDec 8 10,
      transform := fun _ m => .s (trimStr (grpD m 1)),
      validation := fun v =>
        match v with
        | .s w => decide (2 < w.length)
        | _ => false },
    { pname := "availability", re := availabilityRe, confidence := jqDec 85 100,
      transform := fun text m => .s (trimStr (m.whole text)),
      validation := fun v =>
        match v with
        | .s w => decide (0 < w.length)
        | _ => false } ]

/-- `extractBasicInformation`: apply each pattern in order; on a match whose
transformed value passes validation, assign it under the pattern's name. -/
def extractBasicInformation (text : LStr) : ExtractedData :=
  extractionPatterns.foldl
    (fun d p =>
      match reFind p.re text with
      | some m =>
          let v := p.transform text m
          if p.validation v then dataSet d p.pname v else d
      | none => d)
    []

/-! ### Skill extraction -/

/-- `initializeSkillKeywords`, in source order. -/
def skillKeywords : List (String × List String) :=
  [ ("JavaScript", ["javascript", "js", "ecmascript", "es6", "es2015"]),
    ("TypeScript", ["typescript", "ts", "typed javascript"]),
    ("Python", ["python", "py", "python3", "python2"]),
    ("Java", ["java", "jdk", "jre", "jvm"]),
    ("C#", ["c#", "csharp", ".net", "dotnet"]),
    ("C++", ["c++", "cpp", "c plus plus"]),
    ("Go", ["go", "golang"]),
    ("Rust", ["rust", "rustlang"]),
    ("PHP", ["php", "hypertext preprocessor"]),
    ("Ruby", ["ruby", "ruby on rails", "rails"]),
    ("React", ["react", "reactjs", "react.js", "facebook react"]),
    ("Vue.js", ["vue", "vuejs", "vue.js", "vue 3"]),
    ("Angular", ["angular", "angularjs", "angular.js"]),
    ("Node.js", ["node", "nodejs", "node.js", "express"]),
    ("Express.js", ["express", "expressjs", "express.js"]),
    ("Next.js", ["next", "nextjs", "next.js", "nextjs 13"]),
    ("Django", ["django", "python django"]),
    ("Flask", ["flask", "python flask"]),
    ("Spring", ["spring", "spring boot", "spring framework"]),
    ("Laravel", ["laravel", "php laravel"]),
    ("PostgreSQL", ["postgresql", "postgres", "psql"]),
    ("MySQL", ["mysql", "mariadb"]),
    ("MongoDB", ["mongodb", "mongo", "nosql"]),
    ("Redis", ["redis", "cache", "key-value store"]),
    ("SQLite", ["sqlite", "sqlite3"]),
    ("AWS", ["aws", "amazon web services", "ec2", "s3", "lambda"]),
    ("Azure", ["azure", "microsoft azure", "cloud services"]),
    ("GCP", ["gcp", "google cloud", "google cloud platform"]),
    ("Docker", ["docker", "containerization", "containers"]),
    ("Kubernetes", ["kubernetes", "k8s", "container orchestration"]),
    ("CI/CD", ["ci/cd", "continuous integration", "continuous deployment", "jenkins",
      "github actions"]),
    ("Git", ["git", "version control", "github", "gitlab", "bitbucket"]),
    ("Linux", ["linux", "unix", "ubuntu", "centos", "debian"]),
    ("REST API", ["rest", "rest api", "api design", "http api"]),
    ("GraphQL", ["graphql", "api query language"]),
    ("Microservices", ["microservices", "microservice architecture", "service-oriented"]) ]

/-- The dynamically built regex
`(\d+)\s*(?:years?|yrs?)\s*(?:of\s+)?(?:experience\s+with\s+)?<keyword>/i`
(the keyword is regex-escaped in the source, i.e. taken literally). -/
def yearContextRe (kw : LStr) : RE :=
  reSeqN [RE.grp 1 (rePlus clsDigit), RE.star clsSpace, yearsUnitRe, RE.star clsSpace,
    RE.opt (RE.seq (reLit true "of") (rePlus clsSpace)),
    RE.opt (reSeqN [reLit true "experience", rePlus clsSpace, reLit true "with",
      rePlus clsSpace]),
    RE.lit true kw]

def hasSub (lowerText : LStr) (s : String) : Bool := containsSub lowerText s.toList

/-- `calculateSkillConfidence` (src/app/lib/data-extractor.ts).  The
`skillName` parameter is unused, exactly as in the source. -/
def calculateSkillConfidence (text : LStr) (keyword : String) (skillName : String) : JQ :=
  let lowerText := lowerStr text
  let lowerKeyword := lowerStr keyword.toList
  let c0 := jqDec 5 10
  let c1 := if containsSub lowerText lowerKeyword then jqAdd c0 (jqDec 2 10) else c0
  let c2 :=
    if hasSub lowerText "experience with" || hasSub lowerText "worked with" ||
        hasSub lowerText "proficient in" then jqAdd c1 (jqDec 15 100) else c1
  let c3 := if reTest (yearContextRe lowerKeyword) text then jqAdd c2 (jqDec 2 10) else c2
  let c4 :=
    if hasSub lowerText "project" || hasSub lowerText "built" ||
        hasSub lowerText "developed" then jqAdd c3 (jqDec 1 10) else c3
  let c5 :=
    if hasSub lowerText "heard of" || hasSub lowerText "interested in" ||
        hasSub lowerText "want to learn" then jqSub c4 (jqDec 2 10) else c4
  let _ := skillName
  jqMin (jqDec 1 1) (jqMax (jqDec 0 1) c5)

/-- `determineSkillLevel`: the source keys the level off the whole lowercased
text (the keyword parameter is inspected only via unused bindings). -/
def determineSkillLevel (text : LStr) (keyword : String) : String :=
  let lowerText := lowerStr text
  let _ := keyword
  if hasSub lowerText "expert" || hasSub lowerText "senior" || hasSub lowerText "lead" ||
      hasSub lowerText "architect" || hasSub lowerText "principal" then "expert"
  else if hasSub lowerText "advanced" || hasSub lowerText "proficient" ||
      hasSub lowerText "strong" || hasSub lowerText "extensive" ||
      hasSub lowerText "deep" then "advanced"
  else if hasSub lowerText "intermediate" || hasSub lowerText "moderate" ||
      hasSub lowerText "some" || hasSub lowerText "familiar" ||
      hasSub lowerText "comfortable" then "intermediate"
  else if hasSub lowerText "beginner" || hasSub lowerText "basic" ||
      hasSub lowerText "learning" || hasSub lowerText "new to" ||
      hasSub lowerText "just started" then "beginner"
  else "intermediate"

/-- `calculateSkillRelevance`. -/
def calculateSkillRelevance (text : LStr) (keyword : String) : JQ :=
  let lowerText := lowerStr text
  let _ := keyword
  let r0 := jqDec 5 10
  let r1 :=
    if hasSub lowerText "job" || hasSub lowerText "position" || hasSub lowerText "role" ||
        hasSub lowerText "career" || hasSub lowerText "professional" then
      jqAdd r0 (jqDec 2 10) else r0
  let r2 :=
    if hasSub lowerText "technical" || hasSub lowerText "development" ||
        hasSub lowerText "coding" || hasSub lowerText "programming" ||
        hasSub lowerText "software" then jqAdd r1 (jqDec 15 100) else r1
  let r3 :=
    if hasSub lowerText "experience" || hasSub lowerText "background" ||
        hasSub lowerText "skills" || hasSub lowerText "qualifications" ||
        hasSub lowerText "expertise" then jqAdd r2 (jqDec 15 100) else r2
  jqMin (jqDec 1 1) (jqMax (jqDec 0 1) r3)

/-- `extractSkillContext`: 50 characters of context on each side. -/
def extractSkillContext (text : LStr) (keyword : String) : LStr :=
  match indexOfSub (lowerStr text) (lowerStr keyword.toList) with
  | none => []
  | some i =>
      let start := i - 50
      let stop := min text.length (i + keyword.length + 50)
      trimStr (sliceStr text start stop)

structure SkillMatch where
  skill : String
  confidence : JQ
  level : String
  context : LStr
  relevance : JQ

/-- Comparator score `confidence * 0.7 + relevance * 0.3`. -/
def skillScore (m : SkillMatch) : JQ :=
  jqAdd (jqMul m.confidence (jqDec 7 10)) (jqMul m.relevance (jqDec 3 10))

/-- Stable insertion for the descending sort by `skillScore` (ES2019 sorts
are stable, so ties keep their original order). -/
def insertSkillDesc (x : SkillMatch) : List SkillMatch → List SkillMatch
  | [] => [x]
  | y :: t => if jqLtB (skillScore y) (skillScore x) then x :: y :: t else y :: insertSkillDesc x t

def sortSkillMatches (l : List SkillMatch) : List SkillMatch :=
  l.foldl (fun acc x => insertSkillDesc x acc) []

/-- Deduplicate by skill name keeping the higher-confidence entry; the `Map`
keeps the insertion position of the first occurrence of each key. -/
def dedupSkillsAux : List (String × SkillMatch) → List SkillMatch → List (String × SkillMatch)
  | acc, [] => acc
  | acc, m :: t =>
      match acc.lookup m.skill with
      | none => dedupSkillsAux (acc ++ [(m.skill, m)]) t
      | some ex =>
          if jqLtB ex.confidence m.confidence then dedupSkillsAux (setAssocS acc m.skill m) t
          else dedupSkillsAux acc t

def dedupSkills (l : List SkillMatch) : List SkillMatch := (dedupSkillsAux [] l).map (·.2)

/-- `extractSkills`: keyword detection, confidence threshold `> 0.3`, stable
sort by combined score, dedup keeping the higher confidence. -/
def extractSkills (text : LStr) : List SkillMatch :=
  let lowerText := lowerStr text
  let skillMatches :=
    skillKeywords.foldl
      (fun acc kv =>
        kv.2.foldl
          (fun acc2 kw =>
            if containsSub lowerText (lowerStr kw.toList) then
              let confidence := calculateSkillConfidence text kw kv.1
              let level := determineSkillLevel text kw
              let relevance := calculateSkillRelevance text kw
              if jqLtB (jqDec 3 10) confidence then
                acc2 ++ [⟨kv.1, confidence, level, extractSkillContext text kw, relevance⟩]
              else acc2
            else acc2)
          acc)
      []
  dedupSkills (sortSkillMatches skillMatches)

/-! ### Education, location, availability, interests -/

def educationKeywords : List (String × List String) :=
  [ ("Bachelor's", ["bachelor", "bachelor's", "bachelors", "bs", "ba", "b.s.", "b.a."]),
    ("Master's", ["master", "master's", "masters", "ms", "ma", "m.s.", "m.a."]),
    ("PhD", ["phd", "doctorate", "doctor of philosophy", "ph.d."]),
    ("Associate's", ["associate", "associate's", "associates", "aa", "as", "a.a.", "a.s."]),
    ("Computer Science", ["computer science", "cs", "computing", "software engineering"]),
    ("Information Technology", ["it", "information technology", "information systems"]),
    ("Engineering", ["engineering", "software engineering", "computer engineering"]),
    ("Mathematics", ["mathematics", "math", "applied mathematics"]),
    ("Physics", ["physics", "applied physics"]) ]

def locationKeywords : List (String × List String) :=
  [ ("New York", ["new york", "nyc", "manhattan", "brooklyn", "queens"]),
    ("San Francisco", ["san francisco", "sf", "bay area", "silicon valley"]),
    ("Los Angeles", ["los angeles", "la", "hollywood", "santa monica"]),
    ("Chicago", ["chicago", "windy city", "illinois"]),
    ("Seattle", ["seattle", "pacific northwest", "washington"]),
    ("Austin", ["austin", "texas", "atx"]),
    ("Boston", ["boston", "massachusetts", "cambridge"]),
    ("Denver", ["denver", "colorado", "mile high city"]),
    ("Remote", ["remote", "work from home", "wfh", "telecommute", "virtual"]),
    ("Relocation", ["relocation", "relocate", "willing to move", "open to relocation"]) ]

/-- First table entry one of whose keywords occurs in the lowercased text. -/
def firstKeywordHit (lowerText : LStr) : List (String × List String) → Option String
  | [] => none
  | (name, kws) :: t =>
      if kws.any (fun kw => containsSub lowerText (lowerStr kw.toList)) then some name
      else firstKeywordHit lowerText t

/-- `extractEducation` (lib version, returning a display string): a degree
hit optionally combined with a field-of-study hit over the same table. -/
def extractEducation (text : LStr) : Option LStr :=
  let lowerText := lowerStr text
  match firstKeywordHit lowerText educationKeywords with
  | none => none
  | some degree =>
      match firstKeywordHit lowerText (educationKeywords.filter (fun kv => kv.1 ≠ degree)) with
      | some field => some (degree.toList ++ " in ".toList ++ field.toList)
      | none => some degree.toList

/-- `extractLocation` (lib version): first location-keyword hit. -/
def extractLocation (text : LStr) : Option LStr :=
  (firstKeywordHit (lowerStr text) locationKeywords).map (·.toList)

/-- `extractAvailability` (lib version). -/
def extractAvailability (text : LStr) : Option LStr :=
  let lt := lowerStr text
  if hasSub lt "immediately" || hasSub lt "asap" then some "Immediately".toList
  else if hasSub lt "next month" || hasSub lt "in 4 weeks" then some "Next month".toList
  else if hasSub lt "in 2 weeks" then some "In 2 weeks".toList
  else if hasSub lt "notice period" || hasSub lt "2 weeks notice" then
    some "2 weeks notice".toList
  else if hasSub lt "flexible" || hasSub lt "open to discussion" then some "Flexible".toList
  else none

/-- `extractInterests` (lib version). -/
def extractInterests (text : LStr) : List LStr :=
  let lt := lowerStr text
  let add (cond : Bool) (v : String) (acc : List LStr) : List LStr :=
    if cond then acc ++ [v.toList] else acc
  let i1 := add (hasSub lt "career growth" || hasSub lt "advancement") "Career Growth" []
  let i2 := add (hasSub lt "learning" || hasSub lt "development") "Learning & Development" i1
  let i3 := add (hasSub lt "challenge" || hasSub lt "challenging") "Challenging Work" i2
  let i4 := add (hasSub lt "innovation" || hasSub lt "cutting edge") "Innovation" i3
  let i5 := add (hasSub lt "team" || hasSub lt "collaboration") "Team Collaboration" i4
  let i6 := add (hasSub lt "remote" || hasSub lt "flexibility") "Remote Work" i5
  let i7 := add (hasSub lt "startup" || hasSub lt "fast-paced") "Startup Environment" i6
  add (hasSub lt "stability" || hasSub lt "established") "Company Stability" i7

/-! ### Post-processing and overall confidence -/

/-- JavaScript truthiness of a stored value (`""` and `0` are falsy). -/
def jsvTruthy : JSV → Bool
  | .s v => !v.isEmpty
  | .n q => !(q.num == 0)
  | .arr _ => true

/-- JavaScript `Math.round` (half away from zero rounds up, as floor of
`x + 1/2`). -/
def jqRound (q : JQ) : Int := Int.fdiv (2 * q.num + q.den) (2 * q.den)

/-- Keep the first occurrence of each element (JS
`filter((x, i, a) => a.indexOf(x) === i)`). -/
def dedupFirst : List LStr → List LStr → List LStr
  | _, [] => []
  | seen, x :: t =>
      if seen.contains x then dedupFirst seen t else x :: dedupFirst (x :: seen) t

/-- `postProcessExtractedData`: normalisation of name, email, phone,
experience, skills and location, in source order.  Keys written by the
extraction patterns under other names (`fullName`, `firstName`, ...) are
not touched. -/
def postProcessExtractedData (d : ExtractedData) : ExtractedData :=
  let d1 :=
    match dataLookup d "name" with
    | some (.s v) =>
        if !v.isEmpty then dataSet d "name" (.s (trimStr (collapseSpaces v))) else d
    | _ => d
  let d2 :=
    match dataLookup d1 "email" with
    | some (.s v) =>
        if !v.isEmpty then dataSet d1 "email" (.s (trimStr (lowerStr v))) else d1
    | _ => d1
  let d3 :=
    match dataLookup d2 "phone" with
    | some (.s v) =>
        if !v.isEmpty then
          let digits := v.filter isDigitCh
          if digits.length == 10 then
            dataSet d2 "phone"
              (.s ('(' :: digits.take 3 ++ ')' :: ' ' ::
                (digits.drop 3).take 3 ++ '-' :: digits.drop 6))
          else d2
        else d2
    | _ => d2
  let d4 :=
    match dataLookup d3 "experience" with
    | some (.n q) =>
        if !(q.num == 0) then dataSet d3 "experience" (.n (jqDec (jqRound (jqMul q (jqDec 10 1))) 10))
        else d3
    | _ => d3
  let d5 :=
    match dataLookup d4 "skills" with
    | some (.arr a) =>
        dataSet d4 "skills"
          (.arr (dedupFirst []
            (((a.filter (fun s => !s.isEmpty && decide (0 < (trimStr s).length))).map trimStr))))
    | _ => d4
  match dataLookup d5 "location" with
  | some (.s v) =>
      if !v.isEmpty then dataSet d5 "location" (.s (trimStr (collapseSpaces v))) else d5
  | _ => d5

/-- Base confidence per field name (unknown keys default to `0.7`). -/
def fieldBaseConfidence (key : String) : ℚ :=
  if key = "name" then 0.8
  else if key = "email" then 0.95
  else if key = "phone" then 0.9
  else if key = "experience" then 0.85
  else if key = "skills" then 0.75
  else if key = "education" then 0.8
  else if key = "salaryExpectation" then 0.8
  else if key = "location" then 0.8
  else if key = "availability" then 0.85
  else if key = "interests" then 0.7
  else 0.7

/-- Quality adjustment: empty strings and arrays are halved, long strings
(`> 50` characters) and long arrays (`> 5` entries) are boosted by `1.1`;
numbers are unadjusted. -/
def adjustedFieldConfidence (key : String) (v : JSV) : ℚ :=
  let base := fieldBaseConfidence key
  match v with
  | .s w => if w.length = 0 then base * 0.5 else if 50 < w.length then base * 1.1 else base
  | .arr a => if a.length = 0 then base * 0.5 else if 5 < a.length then base * 1.1 else base
  | .n _ => base

/-- `calculateOverallConfidence`: the mean of the adjusted per-field
confidences (no final clamp in the source). -/
def calculateOverallConfidence (d : ExtractedData) : ℚ :=
  if d.isEmpty then 0
  else
    let total := (d.map (fun kv => adjustedFieldConfidence kv.1 kv.2)).sum
    if 0 < d.length then total / (d.length : ℚ) else 0

/-! ### The extraction pipeline -/

/-- Body of `extractCandidateInfo` (the code inside the `try`). -/
def extractCandidateInfoCore (text : LStr) : ExtractedData :=
  let d0 := extractBasicInformation text
  let skills := extractSkills text
  let d1 :=
    if 0 < skills.length then dataSet d0 "skills" (.arr (skills.map (fun m => m.skill.toList)))
    else d0
  let d2 :=
    match extractEducation text with
    | some e => dataSet d1 "education" (.s e)
    | none => d1
  let d3 :=
    match extractLocation text with
    | some l => dataSet d2 "location" (.s l)
    | none => d2
  let d4 :=
    match extractAvailability text with
    | some a => dataSet d3 "availability" (.s a)
    | none => d3
  let interests := extractInterests text
  let d5 := if 0 < interests.length then dataSet d4 "interests" (.arr interests) else d4
  postProcessExtractedData d5

/-- The guarded body as an `Except`: every step of the embedded pipeline is
total, so the result is always `.ok`; the type records that the source wraps
the body in a `try`. -/
def extractCandidateInfoTry (text : LStr) : Except String ExtractedData :=
  .ok (extractCandidateInfoCore text)

/-- `extractCandidateInfo`: the `catch` branch returns the empty record. -/
def extractCandidateInfo (text : LStr) : ExtractedData :=
  match extractCandidateInfoTry text with
  | .ok d => d
  | .error _ => []

/-! ## Candidate profiles and merging (candidate-profile route and session manager)

Profile fields follow the `CandidateProfile` TypeScript interface; fields the
runtime may leave `undefined` are `Option`s.  A `ProfilePatch` is a
`Partial<CandidateProfile>`: every field optional and sub-objects partial.
Where the source assigns a partial sub-object into a full profile slot
(`replace` merges and salary overwrite), the missing numeric sub-fields are
modelled as `0`; the repository only reads those numbers through `> 0`
comparisons, where JS `undefined` and `0` behave identically. -/

def lowerS (s : String) : String := ⟨lowerStr s.data⟩

structure Skill where
  name : String
  level : Option String
  confidence : Option ℚ

structure EducationEntry where
  degree : String
  institution : String
  graduationYear : Option ℚ
  gpa : Option ℚ

structure Experience where
  years : ℚ
  months : ℚ
  description : Option String

structure ExperiencePatch where
  years : Option ℚ
  months : Option ℚ
  description : Option String

structure Salary where
  expected : ℚ
  currency : Option String
  negotiable : Option Bool

structure SalaryPatch where
  expected : Option ℚ
  currency : Option String
  negotiable : Option Bool

structure LocationInfo where
  current : Option String
  willingToRelocate : Option Bool
  preferredLocations : Option (List String)

structure AvailabilityInfo where
  startDate : Option ℚ
  noticePeriod : Option ℚ
  preferredSchedule : Option String

structure CandidateProfile where
  id : String
  name : Option String
  email : Option String
  phone : Option String
  experience : Experience
  skills : List Skill
  education : List EducationEntry
  interests : List String
  availability : AvailabilityInfo
  salary : Salary
  location : LocationInfo
  confidence : ℚ
  lastUpdated : ℚ

structure ProfilePatch where
  name : Option String
  email : Option String
  phone : Option String
  experience : Option ExperiencePatch
  skills : Option (List Skill)
  education : Option (List EducationEntry)
  interests : Option (List String)
  availability : Option AvailabilityInfo
  salary : Option SalaryPatch
  location : Option LocationInfo
  confidence : Option ℚ

/-- JavaScript truthiness of an optional string (`undefined` and `""` falsy). -/
def truthyS : Option String → Bool
  | none => false
  | some s => !s.isEmpty

/-- JavaScript `a || b` on optional strings. -/
def jsOrStr (a b : Option String) : Option String :=
  match a with
  | some s => if s.isEmpty then b else some s
  | none => b

/-- `calculateProfileConfidence` (candidate-profile route): a weighted count
of populated fields, divided by the total factor weight and clamped above
by `1`. -/
def calculateProfileConfidence (p : CandidateProfile) : ℚ :=
  let c1 := (if truthyS p.name then (0.1 : ℚ) else 0) +
    (if truthyS p.email then (0.1 : ℚ) else 0) +
    (if truthyS p.phone then (0.05 : ℚ) else 0)
  let c2 := c1 +
    (if 0 < p.experience.years ∨ 0 < p.experience.months then (0.15 : ℚ) else 0) +
    (if truthyS p.experience.description then (0.05 : ℚ) else 0)
  let c3 := c2 +
    (if p.skills.length ≠ 0 then min ((p.skills.length : ℚ) * 0.05) 0.25 else 0)
  let c4 := c3 +
    (if p.education.length ≠ 0 then min ((p.education.length : ℚ) * 0.15) 0.15 else 0)
  let c5 := c4 + (if p.interests.length ≠ 0 then (0.05 : ℚ) else 0) +
    (if 0 < p.salary.expected then (0.05 : ℚ) else 0) +
    (if truthyS p.location.current then (0.05 : ℚ) else 0)
  let totalFactors : ℚ := 0.25 + 0.2 + 0.25 + 0.15 + 0.15
  if 0 < totalFactors then min (c5 / totalFactors) 1 else 0

inductive MergeStrategy : Type where
  | replace
  | merge
  | append

/-- JS `new Map(list.map(s => [s.name.toLowerCase(), s]))`: later duplicates
overwrite the value but keep the position of the first occurrence. -/
def buildSkillMap (l : List Skill) : List (String × Skill) :=
  l.foldl (fun acc s => setAssocS acc (lowerS s.name) s) []

/-- Skill merge: union by lowercased name, keeping the higher-confidence
entry on conflict (missing confidences count as `0`). -/
def mergeSkillLists (ex ns : List Skill) : List Skill :=
  (ns.foldl
    (fun m s =>
      match m.lookup (lowerS s.name) with
      | none => setAssocS m (lowerS s.name) s
      | some e =>
          if e.confidence.getD 0 < s.confidence.getD 0 then setAssocS m (lowerS s.name) s
          else m)
    (buildSkillMap ex)).map (·.2)

/-- Education merge: union keyed by `degree ++ institution`, skipping
duplicates. -/
def mergeEducationLists (ex ns : List EducationEntry) : List EducationEntry :=
  (ns.foldl
    (fun m e =>
      let key := e.degree ++ e.institution
      if (m.lookup key).isSome then m else m ++ [(key, e)])
    (ex.foldl (fun acc e => setAssocS acc (e.degree ++ e.institution) e) [])).map (·.2)

/-- `mergeProfiles` (candidate-profile route).  All three strategies update
the candidate fields first; `confidence` is then recomputed from the merged
fields and `lastUpdated` set to the current time. -/
def mergeProfiles (existing : CandidateProfile) (newP : ProfilePatch)
    (strategy : MergeStrategy) (now : ℚ) : CandidateProfile :=
  let base :=
    match strategy with
    | .replace =>
        { existing with
          name := newP.name <|> existing.name
          email := newP.email <|> existing.email
          phone := newP.phone <|> existing.phone
          experience :=
            match newP.experience with
            | some pe => ⟨pe.years.getD 0, pe.months.getD 0, pe.description⟩
            | none => existing.experience
          skills := newP.skills.getD existing.skills
          education := newP.education.getD existing.education
          interests := newP.interests.getD existing.interests
          availability := newP.availability.getD existing.availability
          salary :=
            match newP.salary with
            | some ps => ⟨ps.expected.getD 0, ps.currency, ps.negotiable⟩
            | none => existing.salary
          location := newP.location.getD existing.location
          confidence := newP.confidence.getD existing.confidence }
    | .merge =>
        { existing with
          name :=
            if truthyS newP.name && !truthyS existing.name then newP.name else existing.name
          email :=
            if truthyS newP.email && !truthyS existing.email then newP.email
            else existing.email
          phone :=
            if truthyS newP.phone && !truthyS existing.phone then newP.phone
            else existing.phone
          experience :=
            match newP.experience with
            | some pe =>
                ⟨max existing.experience.years (pe.years.getD 0),
                  max existing.experience.months (pe.months.getD 0),
                  jsOrStr pe.description existing.experience.description⟩
            | none => existing.experience
          skills :=
            match newP.skills with
            | some ns => mergeSkillLists existing.skills ns
            | none => existing.skills
          education :=
            match newP.education with
            | some ns => mergeEducationLists existing.education ns
            | none => existing.education
          interests :=
            match newP.interests with
            | some ns =>
                existing.interests ++
                  ns.filter (fun i => !((existing.interests.map lowerS).contains (lowerS i)))
            | none => existing.interests
          salary :=
            match newP.salary with
            | some ps =>
                if 0 < ps.expected.getD 0 then ⟨ps.expected.getD 0, ps.currency, ps.negotiable⟩
                else existing.salary
            | none => existing.salary
          location :=
            match newP.location with
            | some nl =>
                ⟨nl.current <|> existing.location.current,
                  nl.willingToRelocate <|> existing.location.willingToRelocate,
                  nl.preferredLocations <|> existing.location.preferredLocations⟩
            | none => existing.location }
    | .append =>
        { existing with
          skills :=
            match newP.skills with
            | some ns => existing.skills ++ ns
            | none => existing.skills
          education :=
            match newP.education with
            | some ns => existing.education ++ ns
            | none => existing.education
          interests :=
            match newP.interests with
            | some ns => existing.interests ++ ns
            | none => existing.interests }
  { base with confidence := calculateProfileConfidence base, lastUpdated := now }

/-- The candidate profile built by `SessionManager.createSession`: defaults
spread first, then the optional seed (`{ ...defaults, ...candidateProfile }`),
so every field present in the seed — including `confidence` — replaces the
default verbatim. -/
def createSessionProfile (seed : ProfilePatch) (pid : String) (now : ℚ) : CandidateProfile :=
  { id := pid
    name := seed.name
    email := seed.email
    phone := seed.phone
    experience :=
      match seed.experience with
      | some pe => ⟨pe.years.getD 0, pe.months.getD 0, pe.description⟩
      | none => ⟨0, 0, some ""⟩
    skills := seed.skills.getD []
    education := seed.education.getD []
    interests := seed.interests.getD []
    availability := seed.availability.getD ⟨none, none, none⟩
    salary :=
      match seed.salary with
      | some ps => ⟨ps.expected.getD 0, ps.currency, ps.negotiable⟩
      | none => ⟨0, some "USD", some true⟩
    location := seed.location.getD ⟨some "", some false, some []⟩
    confidence := seed.confidence.getD 0
    lastUpdated := now }

/-! ## Conversation stage machine (src/app/lib/conversation-manager.ts) -/

inductive ConvStage : Type where
  | greeting
  | qualification
  | assessment
  | closing
  | completed
deriving DecidableEq

/-- `getStageIndex`: position in the visitation order. -/
def stageIndex : ConvStage → Nat
  | .greeting => 0
  | .qualification => 1
  | .assessment => 2
  | .closing => 3
  | .completed => 4

/-- `calculateProgressIncrement`: keyword-driven progress for the current
stage (the `completed` stage falls into the `default` branch). -/
def calculateProgressIncrement (stage : ConvStage) (message : LStr) : Nat :=
  let m := lowerStr message
  match stage with
  | .greeting =>
      if hasSub m "hello" || hasSub m "hi" then 25
      else if hasSub m "interested" || hasSub m "position" then 50
      else 10
  | .qualification =>
      if hasSub m "experience" || hasSub m "years" then 20
      else if hasSub m "skills" || hasSub m "technologies" then 20
      else if hasSub m "education" || hasSub m "degree" then 20
      else if hasSub m "projects" || hasSub m "work" then 20
      else 5
  | .assessment =>
      if hasSub m "fit" || hasSub m "suitable" then 30
      else if hasSub m "concern" || hasSub m "question" then 20
      else if hasSub m "ready" || hasSub m "proceed" then 50
      else 10
  | .closing =>
      if hasSub m "thank" || hasSub m "bye" then 100
      else if hasSub m "next" || hasSub m "step" then 50
      else 25
  | .completed => 10

/-- Successor in the stage order (`completed` maps to itself through the
`default` branch of the switch). -/
def nextStageOf : ConvStage → ConvStage
  | .greeting => .qualification
  | .qualification => .assessment
  | .assessment => .closing
  | .closing => .completed
  | .completed => .completed

structure ConvState where
  currentStage : ConvStage
  stageProgress : Nat

/-- `transitionToNextStage`: advance and reset progress, unless the switch
produced the same stage. -/
def transitionToNextStage (s : ConvState) : ConvState :=
  let ns := nextStageOf s.currentStage
  if ns ≠ s.currentStage then ⟨ns, 0⟩ else s

/-- `updateConversationState` (the stage-relevant part of `processUserMessage`):
bump progress, capped at 100, and transition when the cap is reached. -/
def updateConversationState (s : ConvState) (message : LStr) : ConvState :=
  let p := min 100 (s.stageProgress + calculateProgressIncrement s.currentStage message)
  if 100 ≤ p then transitionToNextStage ⟨s.currentStage, p⟩ else ⟨s.currentStage, p⟩

def initializeConversationState : ConvState := ⟨.greeting, 0⟩

/-- `resetConversation`: back to the initial state. -/
def resetConversation (_s : ConvState) : ConvState := initializeConversationState

/-- Stage evolution across a sequence of processed user messages. -/
def processMessagesStages (s : ConvState) (msgs : List LStr) : ConvState :=
  msgs.foldl updateConversationState s

/-! ## Language-model gateway retry loop (src/app/lib/llm-client.ts) -/

/-- Outcome of one underlying provider call: a response or a thrown error
with an HTTP status. -/
inductive LLMOutcome : Type where
  | ok (text : String)
  | err (status : Nat)

structure RetryTrace where
  result : Except (Option Nat) String
  attempts : Nat
  delays : List ℚ

/-- The retry loop of `LLMClient.generateResponse`: up to `maxRetries`
attempts; a 429 waits `retryDelay * 2 ^ (attempt - 1)`, a 5xx waits
`retryDelay * attempt`, any other error breaks; exhaustion rethrows the
last error. -/
def genAttemptsAux (outcomes : Nat → LLMOutcome) (retryDelay : ℚ) :
    Nat → Nat → Option Nat → List ℚ → RetryTrace
  | 0, attempt, lastErr, ds => ⟨.error lastErr, attempt - 1, ds.reverse⟩
  | remaining + 1, attempt, lastErr, ds =>
      match outcomes attempt with
      | .ok t => ⟨.ok t, attempt, ds.reverse⟩
      | .err s =>
          if s == 429 then
            genAttemptsAux outcomes retryDelay remaining (attempt + 1) (some s)
              (retryDelay * 2 ^ (attempt - 1) :: ds)
          else if 500 ≤ s then
            genAttemptsAux outcomes retryDelay remaining (attempt + 1) (some s)
              (retryDelay * (attempt : ℚ) :: ds)
          else ⟨.error (some s), attempt, ds.reverse⟩

/-- Run `generateResponse` against an oracle giving the outcome of each
underlying attempt (attempts numbered from 1). -/
def generateResponseRun (outcomes : Nat → LLMOutcome) (maxRetries : Nat)
    (retryDelay : ℚ) : RetryTrace :=
  genAttemptsAux outcomes retryDelay maxRetries 1 none []

/-- `defaultLLMConfig.maxRetries`. -/
def defaultMaxRetries : Nat := 3

/-- `defaultLLMConfig.retryDelay` in milliseconds. -/
def defaultRetryDelay : ℚ := 1000

/-! ## Session manager (src/unnamed session-manager and src/app/lib/session-utils.ts)

Only the fields these operations read or write are modelled; timestamps are
milliseconds since the epoch. -/

inductive SessionStatus : Type where
  | active
  | completed
  | expired
deriving DecidableEq

structure Session where
  sid : String
  status : SessionStatus
  createdAt : ℚ
  updatedAt : ℚ
  expiresAt : ℚ

abbrev SessionStore := List (String × Session)

/-- `markSessionAsCompleted` (session-utils): unconditional status change. -/
def markSessionAsCompleted (s : Session) (now : ℚ) : Session :=
  { s with status := .completed, updatedAt := now }

/-- `markSessionAsExpired` (session-utils): unconditional status change. -/
def markSessionAsExpiredU (s : Session) (now : ℚ) : Session :=
  { s with status := .expired, updatedAt := now }

/-- `SessionManager.completeSession`: false if the id is absent, otherwise
store the completed session (no check of the current status). -/
def completeSession (st : SessionStore) (sid : String) (now : ℚ) : Bool × SessionStore :=
  match st.lookup sid with
  | none => (false, st)
  | some s => (true, setAssocS st sid (markSessionAsCompleted s now))

/-- `SessionManager.markSessionAsExpired`: same shape as `completeSession`. -/
def markSessionAsExpiredM (st : SessionStore) (sid : String) (now : ℚ) : Bool × SessionStore :=
  match st.lookup sid with
  | none => (false, st)
  | some s => (true, setAssocS st sid (markSessionAsExpiredU s now))

/-- `SessionManager.extendSession`: false if the id is absent; otherwise the
new expiry is the stored `expiresAt` plus `hours` hours, with no status or
expiry check. -/
def extendSession (st : SessionStore) (sid : String) (hours : ℚ) (now : ℚ) :
    Bool × SessionStore :=
  match st.lookup sid with
  | none => (false, st)
  | some s =>
      (true, setAssocS st sid
        { s with expiresAt := s.expiresAt + hours * 60 * 60 * 1000, updatedAt := now })

/-- `isSessionExpired` (session-utils). -/
def isSessionExpired (s : Session) (now : ℚ) : Bool := decide (s.expiresAt < now)

/-! ## Concrete instances used by the scenario theorems -/

/-- The conversation text of Scenario 1. -/
def scenario1Text : LStr :=
  "Hi, I'm Sarah Johnson, I have 6 years of experience with React and Node.js".toList

/-- A 54-character e-mail address: long enough (over 50 characters) to
trigger the `1.1` quality boost of `calculateOverallConfidence`, and built
from a single repeated letter so that no other extraction pattern or keyword
fires on the text. -/
def longEmailText : LStr :=
  "eeeeeeeeeeeeeeeeeeeeeeeeeeeeeeeeeeeeeeeeeeeeeeee@ee.ee".toList

/-- The empty `Partial<CandidateProfile>`. -/
def emptyPatch : ProfilePatch :=
  ⟨none, none, none, none, none, none, none, none, none, none, none⟩

/-- An existing profile with name, email and phone known and 3 years /
2 months of experience. -/
def cProfileFull : CandidateProfile :=
  { id := "p0", name := some "Ann Lee", email := some "ann@x.co", phone := some "111"
    experience := ⟨3, 2, none⟩, skills := [], education := [], interests := []
    availability := ⟨none, none, none⟩, salary := ⟨0, some "USD", some true⟩
    location := ⟨some "", some false, some []⟩, confidence := 0, lastUpdated := 0 }

/-- A new partial profile trying to overwrite the scalar fields and raise
the experience to 5 years / 1 month. -/
def cPatchOverwrite : ProfilePatch :=
  { emptyPatch with name := some "Bob", email := some "bob@y.co", phone := some "222"
                    experience := some ⟨some 5, some 1, none⟩ }

/-- A seed passed to `createSession` carrying an ad-hoc confidence. -/
def cSeed : ProfilePatch :=
  { emptyPatch with name := some "Ann", confidence := some (9 / 10) }

def cSeedProfile : CandidateProfile := createSessionProfile cSeed "p1" 0

/-- Attempt oracle for the gateway scenario: rate-limited twice, then a
successful response. -/
def wOutcomes : Nat → LLMOutcome := fun n => if n == 3 then .ok "Recovered" else .err 429

/-- A store holding one expired-status and one completed-status session,
both already past their expiry time `10`. -/
def wSessions : SessionStore :=
  [("a", ⟨"a", .expired, 0, 0, 10⟩), ("b", ⟨"b", .completed, 0, 0, 10⟩)]

/-! # Theorems -/

/-! ## Semantics of the `JQ` arithmetic -/

theorem JQ.den_pos (q : JQ) : 0 < q.den := Nat.succ_pos _

theorem JQ.den_cast_pos (q : JQ) : (0 : ℚ) < (q.den : ℚ) := by
  exact_mod_cast q.den_pos

theorem jqLeB_iff (a b : JQ) : jqLeB a b = true ↔ a.toRat ≤ b.toRat := by
  unfold jqLeB JQ.toRat
  rw [div_le_div_iff₀ a.den_cast_pos b.den_cast_pos]
  rw [decide_eq_true_iff]
  constructor
  · intro h
    exact_mod_cast h
  · intro h
    exact_mod_cast h

theorem toRat_jqMin (a b : JQ) : (jqMin a b).toRat = min a.toRat b.toRat := by
  unfold jqMin
  rcases h : jqLeB a b with _ | _
  · have h2 : ¬ a.toRat ≤ b.toRat := by
      intro hc
      rw [← jqLeB_iff] at hc
      simp [h] at hc
    simp [min_eq_right (le_of_not_le h2)]
  · have h2 : a.toRat ≤ b.toRat := (jqLeB_iff a b).mp h
    simp [min_eq_left h2]

theorem toRat_jqMax (a b : JQ) : (jqMax a b).toRat = max a.toRat b.toRat := by
  unfold jqMax
  rcases h : jqLeB a b with _ | _
  · have h2 : ¬ a.toRat ≤ b.toRat := by
      intro hc
      rw [← jqLeB_iff] at hc
      simp [h] at hc
    simp [max_eq_left (le_of_not_le h2)]
  · have h2 : a.toRat ≤ b.toRat := (jqLeB_iff a b).mp h
    simp [max_eq_right h2]

/-! ## Association-list helper -/

theorem lookup_setAssocS {β : Type} (l : List (String × β)) (k : String) (v : β) :
    (setAssocS l k v).lookup k = some v := by
  induction l with
  | nil => simp [setAssocS]
  | cons h t ih =>
      obtain ⟨j, w⟩ := h
      by_cases hk : j = k
      · simp [setAssocS, hk]
      · have hk2 : (j == k) = false := by simp [hk]
        have hk3 : (k == j) = false := by simp [Ne.symm hk]
        simp [setAssocS, hk2, List.lookup, hk3, ih]

/-! ## C1: merge never removes known scalar fields -/

/-- C1: for the `merge` strategy, an existing truthy `name` (resp. `email`,
`phone`) survives any merge unchanged — merging never removes a previously
known scalar field. -/
theorem mergeProfiles_merge_preserves_scalar_fields
    (existing : CandidateProfile) (newP : ProfilePatch) (now : ℚ) :
    (truthyS existing.name = true →
      (mergeProfiles existing newP .merge now).name = existing.name) ∧
    (truthyS existing.email = true →
      (mergeProfiles existing newP .merge now).email = existing.email) ∧
    (truthyS existing.phone = true →
      (mergeProfiles existing newP .merge now).phone = existing.phone) := by
  refine ⟨fun h => ?_, fun h => ?_, fun h => ?_⟩ <;> simp [mergeProfiles, h]

/-- Witness for C1 at a concrete profile whose three scalar fields are set
and a patch that tries to overwrite all of them. -/
theorem mergeProfiles_merge_preserves_scalar_fields_witness :
    (mergeProfiles cProfileFull cPatchOverwrite .merge 7).name = some "Ann Lee" ∧
    (mergeProfiles cProfileFull cPatchOverwrite .merge 7).email = some "ann@x.co" ∧
    (mergeProfiles cProfileFull cPatchOverwrite .merge 7).phone = some "111" := by
  have h := mergeProfiles_merge_preserves_scalar_fields cProfileFull cPatchOverwrite 7
  exact ⟨(h.1 (by decide)).trans rfl, (h.2.1 (by decide)).trans rfl,
    (h.2.2 (by decide)).trans rfl⟩

/-! ## C6: experience merges as an independent maximum -/

/-- C6: under the `merge` strategy, when the new partial profile carries an
experience object, the merged years and months are each the maximum of the
existing value and the (defaulted) new value. -/
theorem mergeProfiles_merge_experience_max
    (existing : CandidateProfile) (newP : ProfilePatch) (now : ℚ)
    (pe : ExperiencePatch) (h : newP.experience = some pe) :
    (mergeProfiles existing newP .merge now).experience.years =
      max existing.experience.years (pe.years.getD 0) ∧
    (mergeProfiles existing newP .merge now).experience.months =
      max existing.experience.months (pe.months.getD 0) := by
  constructor <;> simp [mergeProfiles, h]

/-- Witness for C6: existing years 3 and months 2, new years 5 and months 1
merge to years 5 (the new maximum) and months 2 (the old maximum) — the two
components are maximised independently, which is Scenario 4. -/
theorem mergeProfiles_merge_experience_max_witness :
    (mergeProfiles cProfileFull cPatchOverwrite .merge 0).experience.years = 5 ∧
    (mergeProfiles cProfileFull cPatchOverwrite .merge 0).experience.months = 2 := by
  have h := mergeProfiles_merge_experience_max cProfileFull cPatchOverwrite 0
    ⟨some 5, some 1, none⟩ rfl
  constructor
  · rw [h.1]
    decide
  · rw [h.2]
    decide

/-! ## C4: confidence recomputation -/

/-- C4 (amended, merge part): after `mergeProfiles` under every strategy the
stored confidence equals `calculateProfileConfidence` of the merged
profile. -/
theorem mergeProfiles_always_recomputes_confidence
    (existing : CandidateProfile) (newP : ProfilePatch) (strategy : MergeStrategy) (now : ℚ) :
    (mergeProfiles existing newP strategy now).confidence =
      calculateProfileConfidence (mergeProfiles existing newP strategy now) := by
  cases strategy <;> rfl

/-- C4 counterexample: `createSession` with a seed carrying
`confidence = 9/10` stores that value verbatim, while the deterministic
weighted function of the populated fields evaluates to `1/10`. -/
theorem createSession_seed_confidence_verbatim :
    cSeedProfile.confidence = 9 / 10 ∧
    calculateProfileConfidence cSeedProfile = 1 / 10 ∧
    cSeedProfile.confidence ≠ calculateProfileConfidence cSeedProfile := by
  have h1 : cSeedProfile.confidence = 9 / 10 := rfl
  have h2 : calculateProfileConfidence cSeedProfile = 1 / 10 := by
    norm_num [calculateProfileConfidence, cSeedProfile, createSessionProfile, cSeed,
      emptyPatch, truthyS, show ("Ann".isEmpty) = false from rfl,
      show ("".isEmpty) = true from rfl, min_def]
  exact ⟨h1, h2, by rw [h1, h2]; norm_num⟩

/-! ## C9: session status transitions -/

/-- C9 (amended): `completeSession` and `markSessionAsExpired` fail exactly
on an unknown id and otherwise set the status unconditionally — the stored
status is overwritten whatever its current value, so `completed` and
`expired` are not terminal. -/
theorem session_status_set_unconditionally (st : SessionStore) (sid : String) (now : ℚ) :
    (∀ s, st.lookup sid = some s →
        (completeSession st sid now).1 = true ∧
        (completeSession st sid now).2.lookup sid = some (markSessionAsCompleted s now) ∧
        (markSessionAsCompleted s now).status = .completed) ∧
    (st.lookup sid = none →
        (completeSession st sid now).1 = false ∧ (completeSession st sid now).2 = st) ∧
    (∀ s, st.lookup sid = some s →
        (markSessionAsExpiredM st sid now).1 = true ∧
        (markSessionAsExpiredM st sid now).2.lookup sid = some (markSessionAsExpiredU s now) ∧
        (markSessionAsExpiredU s now).status = .expired) ∧
    (st.lookup sid = none →
        (markSessionAsExpiredM st sid now).1 = false ∧
        (markSessionAsExpiredM st sid now).2 = st) := by
  refine ⟨fun s h => ?_, fun h => ?_, fun s h => ?_, fun h => ?_⟩ <;>
    simp [completeSession, markSessionAsExpiredM, h, lookup_setAssocS,
      markSessionAsCompleted, markSessionAsExpiredU]

/-- Witness for the amended C9 at a concrete store. -/
theorem session_status_set_unconditionally_witness :
    (completeSession wSessions "a" 5).1 = true ∧
    (completeSession wSessions "a" 5).2.lookup "a" =
      some (markSessionAsCompleted ⟨"a", .expired, 0, 0, 10⟩ 5) ∧
    (markSessionAsCompleted ⟨"a", .expired, 0, 0, 10⟩ 5).status = .completed :=
  (session_status_set_unconditionally wSessions "a" 5).1 ⟨"a", .expired, 0, 0, 10⟩ rfl

/-- C9 counterexample: in a store holding an `expired`-status session `a`
and a `completed`-status session `b`, `completeSession a` turns the expired
session into a completed one and `markSessionAsExpired b` turns the
completed session into an expired one — the claimed terminal states do
transition. -/
theorem completeSession_revives_expired_session :
    ((completeSession wSessions "a" 5).2.lookup "a").map Session.status =
      some .completed ∧
    ((markSessionAsExpiredM wSessions "b" 5).2.lookup "b").map Session.status =
      some .expired := ⟨rfl, rfl⟩

/-! ## C10: extendSession semantics -/

/-- C10: `extendSession` succeeds exactly when the id is stored; it adds
`hours` hours to the stored expiry (not to the current time) and performs no
status or expiry check, so it also extends completed or already-expired
sessions. -/
theorem extendSession_spec (st : SessionStore) (sid : String) (hours now : ℚ) :
    (∀ s, st.lookup sid = some s →
        (extendSession st sid hours now).1 = true ∧
        (extendSession st sid hours now).2.lookup sid =
          some { s with expiresAt := s.expiresAt + hours * 60 * 60 * 1000,
                        updatedAt := now }) ∧
    (st.lookup sid = none →
        (extendSession st sid hours now).1 = false ∧
        (extendSession st sid hours now).2 = st) := by
  refine ⟨fun s h => ?_, fun h => ?_⟩ <;> simp [extendSession, h, lookup_setAssocS]

/-- Witness for C10: session `a` is expired in both senses (status
`expired`, expiry `10` in the past of `now = 100`), yet the extension
succeeds and the new expiry is the old expiry plus 24 hours. -/
theorem extendSession_spec_witness :
    (extendSession wSessions "a" 24 100).1 = true ∧
    (extendSession wSessions "a" 24 100).2.lookup "a" =
      some { sid := "a", status := .expired, createdAt := 0, updatedAt := 100,
             expiresAt := (10 : ℚ) + 24 * 60 * 60 * 1000 } := by
  have h := (extendSession_spec wSessions "a" 24 100).1 ⟨"a", .expired, 0, 0, 10⟩ rfl
  exact ⟨h.1, h.2⟩

/-! ## C3: stage monotonicity -/

theorem stageIndex_nextStageOf (st : ConvStage) : stageIndex st ≤ stageIndex (nextStageOf st) := by
  cases st <;> decide

theorem stageIndex_update_le (s : ConvState) (m : LStr) :
    stageIndex s.currentStage ≤ stageIndex (updateConversationState s m).currentStage := by
  simp only [updateConversationState, transitionToNextStage]
  split_ifs <;> simp [stageIndex_nextStageOf]

/-- C3: across any sequence of processed user messages the conversation
stage index never decreases (the per-message update can only keep the stage
or advance it), and an explicit reset returns the state to `greeting` with
zero progress. -/
theorem conversation_stage_monotone_and_reset :
    (∀ (s : ConvState) (msgs : List LStr),
        stageIndex s.currentStage ≤ stageIndex (processMessagesStages s msgs).currentStage) ∧
    (∀ s : ConvState, resetConversation s = initializeConversationState ∧
        (resetConversation s).currentStage = .greeting) := by
  constructor
  · intro s msgs
    induction msgs generalizing s with
    | nil => exact le_refl _
    | cons m t ih =>
        exact le_trans (stageIndex_update_le s m) (ih (updateConversationState s m))
  · exact fun s => ⟨rfl, rfl⟩

/-! ## C5: gateway retry behaviour -/

/-- C5: if the underlying call is rate-limited (HTTP 429) on the first two
attempts and succeeds on the third, `generateResponse` with the default
3-attempt budget returns the successful text after exactly 3 underlying
attempts, having waited `retryDelay * 2 ^ 0` and then `retryDelay * 2 ^ 1`
between attempts. -/
theorem generateResponse_rate_limit_retry (t : String) (d : ℚ)
    (outcomes : Nat → LLMOutcome)
    (h1 : outcomes 1 = .err 429) (h2 : outcomes 2 = .err 429) (h3 : outcomes 3 = .ok t) :
    generateResponseRun outcomes defaultMaxRetries d =
      ⟨.ok t, 3, [d * 2 ^ (0 : Nat), d * 2 ^ (1 : Nat)]⟩ := by
  simp [generateResponseRun, defaultMaxRetries, genAttemptsAux, h1, h2, h3]

/-- Witness for C5 with the default configuration and a concrete outcome
oracle. -/
theorem generateResponse_rate_limit_retry_witness :
    generateResponseRun wOutcomes defaultMaxRetries defaultRetryDelay =
      ⟨.ok "Recovered", 3,
        [defaultRetryDelay * 2 ^ (0 : Nat), defaultRetryDelay * 2 ^ (1 : Nat)]⟩ :=
  generateResponse_rate_limit_retry "Recovered" defaultRetryDelay wOutcomes rfl rfl rfl

/-! ## C2: confidence boundedness -/

theorem ite_nonneg_q {c : Prop} [Decidable c] {q : ℚ} (h : 0 ≤ q) :
    0 ≤ if c then q else 0 := by
  split <;> simp [h]

theorem calculateProfileConfidence_bounds (p : CandidateProfile) :
    0 ≤ calculateProfileConfidence p ∧ calculateProfileConfidence p ≤ 1 := by
  have htf : ((0.25 : ℚ) + 0.2 + 0.25 + 0.15 + 0.15) = 1 := by norm_num
  have h01 : (0 : ℚ) < 1 := by norm_num
  simp only [calculateProfileConfidence, htf, if_pos h01, div_one]
  constructor
  · refine le_min ?_ (by norm_num)
    repeat' apply add_nonneg
    all_goals apply ite_nonneg_q
    all_goals first
      | exact le_min (by positivity) (by norm_num)
      | norm_num
  · exact min_le_right _ _

theorem fieldBaseConfidence_bounds (key : String) :
    0.7 ≤ fieldBaseConfidence key ∧ fieldBaseConfidence key ≤ 0.95 := by
  unfold fieldBaseConfidence
  split_ifs <;> norm_num

theorem adjustedFieldConfidence_bounds (key : String) (v : JSV) :
    0 ≤ adjustedFieldConfidence key v ∧ adjustedFieldConfidence key v ≤ 209 / 200 := by
  obtain ⟨hlo, hhi⟩ := fieldBaseConfidence_bounds key
  have hnn : (0 : ℚ) ≤ fieldBaseConfidence key := le_trans (by norm_num) hlo
  unfold adjustedFieldConfidence
  cases v <;> simp only [] <;> (try split_ifs) <;> constructor <;> nlinarith

theorem sum_nonneg_and_le (l : List ℚ) (B : ℚ) (h : ∀ x ∈ l, 0 ≤ x ∧ x ≤ B) :
    0 ≤ l.sum ∧ l.sum ≤ (l.length : ℚ) * B := by
  induction l with
  | nil => simp
  | cons a t ih =>
      obtain ⟨ha, hb⟩ := h a (List.mem_cons_self a t)
      obtain ⟨h1, h2⟩ := ih fun x hx => h x (List.mem_cons_of_mem a hx)
      constructor
      · simpa using add_nonneg ha h1
      · simp only [List.sum_cons, List.length_cons]
        push_cast
        nlinarith

theorem calculateOverallConfidence_bounds (d : ExtractedData) :
    0 ≤ calculateOverallConfidence d ∧ calculateOverallConfidence d ≤ 209 / 200 := by
  simp only [calculateOverallConfidence]
  split_ifs with h1 h2
  · norm_num
  · have hb := sum_nonneg_and_le (d.map fun kv => adjustedFieldConfidence kv.1 kv.2) (209 / 200)
      (by
        intro x hx
        obtain ⟨kv, _, rfl⟩ := List.mem_map.mp hx
        exact adjustedFieldConfidence_bounds kv.1 kv.2)
    have hlen : (0 : ℚ) < (d.length : ℚ) := by exact_mod_cast h2
    constructor
    · exact div_nonneg hb.1 (le_of_lt hlen)
    · rw [div_le_iff₀ hlen]
      calc (d.map fun kv => adjustedFieldConfidence kv.1 kv.2).sum
          ≤ ((d.map fun kv => adjustedFieldConfidence kv.1 kv.2).length : ℚ) * (209 / 200) :=
            hb.2
        _ = 209 / 200 * (d.length : ℚ) := by rw [List.length_map]; ring
  · norm_num

theorem calculateSkillConfidence_bounds (text : LStr) (kw sn : String) :
    0 ≤ (calculateSkillConfidence text kw sn).toRat ∧
    (calculateSkillConfidence text kw sn).toRat ≤ 1 := by
  have h1 : (jqDec 1 1).toRat = 1 := by norm_num [jqDec, JQ.toRat, JQ.den]
  have h0 : (jqDec 0 1).toRat = 0 := by norm_num [jqDec, JQ.toRat, JQ.den]
  simp only [calculateSkillConfidence, toRat_jqMin, toRat_jqMax, h1, h0]
  constructor
  · exact le_min (by norm_num) (le_max_left 0 _)
  · exact min_le_left _ _

/-- C2 (amended): `calculateProfileConfidence` and the per-skill
`calculateSkillConfidence` always lie in `[0, 1]`, but the extractor's
`calculateOverallConfidence` has no final clamp: it lies in `[0, 209/200]`
and can genuinely exceed `1` (see the counterexample). -/
theorem confidence_bounds_amended (d : ExtractedData) (p : CandidateProfile)
    (text : LStr) (kw sn : String) :
    (0 ≤ calculateOverallConfidence d ∧ calculateOverallConfidence d ≤ 209 / 200) ∧
    (0 ≤ calculateProfileConfidence p ∧ calculateProfileConfidence p ≤ 1) ∧
    (0 ≤ (calculateSkillConfidence text kw sn).toRat ∧
      (calculateSkillConfidence text kw sn).toRat ≤ 1) :=
  ⟨calculateOverallConfidence_bounds d, calculateProfileConfidence_bounds p,
    calculateSkillConfidence_bounds text kw sn⟩

/-- C2 counterexample: running the extraction pipeline on a single long
e-mail address yields a record whose only field is that e-mail (54
characters), and `calculateOverallConfidence` of that record is
`0.95 * 1.1 = 209/200 > 1` — the confidence is not bounded by `1`. -/
theorem overallConfidence_exceeds_one_on_long_email :
    calculateOverallConfidence (extractCandidateInfo longEmailText) = 209 / 200 ∧
    1 < calculateOverallConfidence (extractCandidateInfo longEmailText) := by
  have h : extractCandidateInfo longEmailText =
      [("email", JSV.s "eeeeeeeeeeeeeeeeeeeeeeeeeeeeeeeeeeeeeeeeeeeeeeee@ee.ee".toList)] := rfl
  have hlen : ("eeeeeeeeeeeeeeeeeeeeeeeeeeeeeeeeeeeeeeeeeeeeeeee@ee.ee".toList).length = 54 :=
    rfl
  have he : calculateOverallConfidence (extractCandidateInfo longEmailText) = 209 / 200 := by
    rw [h]
    simp [calculateOverallConfidence, adjustedFieldConfidence, fieldBaseConfidence, hlen]
    norm_num
  exact ⟨he, by rw [he]; norm_num⟩

/-! ## C7: Scenario 1 extraction -/

/-- C7 counterexample: extraction of the Scenario 1 text produces no `name`
field at all (the name patterns store their result under `fullName` and
`firstName`), so the claimed `name = "Sarah Johnson"` is false. -/
theorem extraction_scenario1_name_key_absent :
    dataLookup (extractCandidateInfo scenario1Text) "name" = none ∧
    dataLookup (extractCandidateInfo scenario1Text) "name" ≠
      some (JSV.s "Sarah Johnson".toList) := by
  have h : dataLookup (extractCandidateInfo scenario1Text) "name" = none := rfl
  exact ⟨h, by rw [h]; simp⟩

/-- C7 (amended): on the Scenario 1 text the extraction stores
"Sarah Johnson" under the key `fullName` (not `name`), the experience value
is the number 6, and the extracted skills contain both React and Node.js. -/
theorem extraction_scenario1_amended :
    dataLookup (extractCandidateInfo scenario1Text) "fullName" =
      some (JSV.s "Sarah Johnson".toList) ∧
    dataLookup (extractCandidateInfo scenario1Text) "experience" =
      some (JSV.n (jqDec 60 10)) ∧
    (jqDec 60 10).toRat = 6 ∧
    dataLookup (extractCandidateInfo scenario1Text) "skills" =
      some (JSV.arr ["React".toList, "JavaScript".toList, "Node.js".toList]) ∧
    "React".toList ∈ ["React".toList, "JavaScript".toList, "Node.js".toList] ∧
    "Node.js".toList ∈ ["React".toList, "JavaScript".toList, "Node.js".toList] := by
  refine ⟨rfl, rfl, ?_, rfl, by simp, by simp⟩
  norm_num [jqDec, JQ.toRat, JQ.den]

/-! ## C8: extraction never throws -/

/-- C8: for every conversation text, `extractCandidateInfo` returns a plain
record: when the wrapped body succeeds its value is returned unchanged, and
if the body fails the empty partial profile is returned instead of
propagating the error. -/
theorem extractCandidateInfo_never_throws (text : LStr) :
    (∃ d, extractCandidateInfoTry text = .ok d ∧ extractCandidateInfo text = d) ∨
    (∃ e, extractCandidateInfoTry text = .error e ∧ extractCandidateInfo text = []) := by
  cases h : extractCandidateInfoTry text with
  | ok d => exact .inl ⟨d, rfl, by simp [extractCandidateInfo, h]⟩
  | error e => exact .inr ⟨e, rfl, by simp [extractCandidateInfo, h]⟩

end Chatbot
